import Mathlib

/-!
Shallow embedding of the meal-ordering form application.

The repository contains near-duplicate React Native variants of a single
meal-order form.  This file embeds the pure data, aggregation and
serialization logic of the variants that the verified properties refer to:

* namespace V1 : the first variant in src/App.tsx (fixed pricing
  BASE_PRICE 90 and LOW_CARB_EXTRA 10, buildOrderText, pickWeek,
  send-time week validation, clearOrder);
* namespace V3 : the third variant in src/App.tsx (menus.json catalog,
  clampWeek and setWeekSafely, detailed on-screen summary, simplified
  WhatsApp message, clearOrder that resets only grids and notes);
* namespace P0 : the variant in src/unnamed/part_000 (per-week pricing
  overrides, catalog-driven week defaults, pickWeek, clearOrder).

Modelling conventions.  JavaScript numbers that hold week values are
embedded as JSNum (an integer or a non-finite value); every week value the
program produces is an integer, so the finite case carries an Int.
Quantities and money amounts are embedded as Int: quantities are integers
by construction (they start at 0 and change by integer deltas) and all
prices are integers, so toFixed(2) on a total is the integer rendering
followed by ".00".  UI-only state (modal visibility, expanded descriptions,
colors, styles) and the catalog per-day menu texts that no embedded
operation reads are not part of the state.  Alerts shown to the user are
embedded as error values returned next to the new state.
-/

inductive DayName where
  | Monday | Tuesday | Wednesday | Thursday | Friday
  deriving DecidableEq

inductive MealType where
  | Meat | Veg | LowCarb
  deriving DecidableEq

/-- The fixed ordered day list DAYS of every variant. -/
def DAYS : List DayName :=
  [DayName.Monday, DayName.Tuesday, DayName.Wednesday, DayName.Thursday, DayName.Friday]

/-- The meal type list MEAL_TYPES / MEALS of the variants. -/
def MEAL_TYPES : List MealType := [MealType.Meat, MealType.Veg, MealType.LowCarb]

/-- A quantity grid: day and meal type to quantity (source: nested records). -/
def Qty := DayName → MealType → Int

/-- emptyWeekQuantities: every cell zero. -/
def emptyWeekQuantities : Qty := fun _ _ => 0

/-- clamp0 from variants V1 and P0 (variant V3 writes Math.max(0, n), the
same function). -/
def clamp0 (n : Int) : Int := if n < 0 then 0 else n

/-- String(n) for an integer-valued JS number. -/
def jsString (n : Int) : String := toString n

/-- The JS string trim(): drop whitespace from both ends.  Defined by
structural recursion on the character list so that it evaluates. -/
def jsTrim (s : String) : String :=
  String.mk (((s.data.dropWhile Char.isWhitespace).reverse.dropWhile Char.isWhitespace).reverse)

/-- String(n).padStart(2, "0"). -/
def pad2 (n : Int) : String :=
  let s := jsString n
  String.mk (List.replicate (2 - s.length) '0') ++ s

/-- n.toFixed(2) for an integer-valued amount. -/
def toFixed2 (n : Int) : String := jsString n ++ ".00"

/-- formatRand from the variants. -/
def formatRand (n : Int) : String := "R" ++ toFixed2 n

/-- Rendering of a DayName, as the TS string literal. -/
def dayStr : DayName → String
  | DayName.Monday => "Monday"
  | DayName.Tuesday => "Tuesday"
  | DayName.Wednesday => "Wednesday"
  | DayName.Thursday => "Thursday"
  | DayName.Friday => "Friday"

/-- DAY_SHORT from variant V3. -/
def dayShort : DayName → String
  | DayName.Monday => "Mon"
  | DayName.Tuesday => "Tue"
  | DayName.Wednesday => "Wed"
  | DayName.Thursday => "Thu"
  | DayName.Friday => "Fri"

/-- Rendering of a MealType, as the TS string literal. -/
def mealStr : MealType → String
  | MealType.Meat => "Meat"
  | MealType.Veg => "Veg"
  | MealType.LowCarb => "Low Carb"

/-- changeQty of the variants, restricted to its pure grid effect: the
targeted cell becomes clamp0(previous + delta), all other cells keep their
value (the source spreads the old record and overwrites one cell). -/
def changeQty (q : Qty) (day : DayName) (meal : MealType) (delta : Int) : Qty :=
  fun d m => if d = day ∧ m = meal then clamp0 (q day meal + delta) else q d m

/-- A sequence of changeQty calls all targeting the same cell, starting
from the empty grid. -/
def applyCalls (day : DayName) (meal : MealType) (ds : List Int) : Qty :=
  ds.foldl (fun g delta => changeQty g day meal delta) emptyWeekQuantities

/-- The per-cell effect of a delta sequence: left fold of per-step
clamping. -/
def foldClamp (ds : List Int) (q : Int) : Int :=
  ds.foldl (fun a d => clamp0 (a + d)) q

/-- Which week slot an operation targets. -/
inductive Slot where
  | A | B
  deriving DecidableEq

/-- A JavaScript number as consumed by the week-setting path: an integer
(the only finite values the program produces) or a non-finite value. -/
inductive JSNum where
  | nan
  | inf (pos : Bool)
  | int (n : Int)
  deriving DecidableEq

/-- The duplicate-week rejection alert of pickWeek. -/
inductive PickError where
  | duplicate
  deriving DecidableEq

/-- The while-loop of variant V3 that pops trailing empty lines. -/
def popTrailingEmpty (l : List String) : List String :=
  (l.reverse.dropWhile (fun x => x == "")).reverse

/-- A catalog menu item: name and description. -/
structure MenuItem where
  name : String
  description : String
  deriving DecidableEq

namespace V1

def BASE_PRICE : Int := 90

def LOW_CARB_EXTRA : Int := 10

/-- sumWeekMeals of variant V1 (src/App.tsx lines 42-46): nested loop
accumulation over DAYS and MEAL_TYPES. -/
def sumWeekMeals (q : Qty) : Int :=
  DAYS.foldl (fun total d => MEAL_TYPES.foldl (fun t m => t + q d m) total) 0

/-- sumWeekCost of variant V1 (src/App.tsx lines 48-58). -/
def sumWeekCost (q : Qty) : Int :=
  DAYS.foldl (fun total d =>
    MEAL_TYPES.foldl (fun t m =>
      t + q d m * (if m = MealType.LowCarb then BASE_PRICE + LOW_CARB_EXTRA else BASE_PRICE))
      total) 0

/-- The variant V1 form state (name, notes, weeks, biweekly toggle,
quantity grids).  Modal state is UI-only and omitted. -/
structure S where
  name : String
  notes : String
  weekA : Int
  useWeekB : Bool
  weekB : Int
  qtyA : Qty
  qtyB : Qty

/-- totalMeals = weekATotalMeals + weekBTotalMeals, where the week B memo
is 0 unless useWeekB. -/
def totalMeals (s : S) : Int :=
  sumWeekMeals s.qtyA + (if s.useWeekB then sumWeekMeals s.qtyB else 0)

/-- totalCost = weekATotalCost + weekBTotalCost, where the week B memo is
0 unless useWeekB. -/
def totalCost (s : S) : Int :=
  sumWeekCost s.qtyA + (if s.useWeekB then sumWeekCost s.qtyB else 0)

/-- clearOrder of variant V1 (src/App.tsx lines 108-117): resets name,
notes, weekA to 1, biweekly off, weekB to 2 and both grids. -/
def clearOrder (_s : S) : S :=
  { name := "", notes := "", weekA := 1, useWeekB := false, weekB := 2,
    qtyA := emptyWeekQuantities, qtyB := emptyWeekQuantities }

/-- The per-day lines of buildOrderText: a line per day that has at least
one nonzero part, parts joined by " + ". -/
def dayLines (q : Qty) : List String :=
  DAYS.foldl (fun lines d =>
    let parts := MEAL_TYPES.foldl (fun ps m =>
      if 0 < q d m then ps ++ [jsString (q d m) ++ " " ++ mealStr m] else ps) []
    if 0 < parts.length then
      lines ++ ["- " ++ dayStr d ++ ": " ++ String.intercalate " + " parts]
    else lines) []

/-- One week block of buildOrderText: header, day lines, totals, blank. -/
def weekBlockLines (w : Int) (q : Qty) : List String :=
  ["Week " ++ pad2 w ++ ":"]
  ++ dayLines q
  ++ ["Total meals (Week " ++ pad2 w ++ "): " ++ jsString (sumWeekMeals q)]
  ++ ["Cost (Week " ++ pad2 w ++ "): " ++ formatRand (sumWeekCost q)]
  ++ [""]

/-- The lines pushed by buildOrderText (src/App.tsx lines 119-162). -/
def orderLines (s : S) : List String :=
  ["Meal Order", "Name: " ++ (if jsTrim s.name = "" then "[name]" else jsTrim s.name), ""]
  ++ weekBlockLines s.weekA s.qtyA
  ++ (if s.useWeekB then weekBlockLines s.weekB s.qtyB else [])
  ++ ["Total meals: " ++ jsString (totalMeals s)]
  ++ ["Total cost: " ++ formatRand (totalCost s)]
  ++ (if jsTrim s.notes = "" then [] else ["", "Notes: " ++ jsTrim s.notes])

/-- buildOrderText = lines.join("\n"). -/
def buildOrderText (s : S) : String := String.intercalate "\n" (orderLines s)

/-- The alerts of sendWhatsApp (src/App.tsx lines 164-178) raised before
any message is built. -/
inductive SendError where
  | weekAOutOfRange
  | weekBOutOfRange
  | duplicateWeek
  deriving DecidableEq

/-- The validation sequence at the top of sendWhatsApp: week A range, then
(when biweekly) week B range and distinctness. -/
def sendValidate (s : S) : Option SendError :=
  if s.weekA < 1 ∨ 48 < s.weekA then some SendError.weekAOutOfRange
  else if s.useWeekB = true ∧ (s.weekB < 1 ∨ 48 < s.weekB) then some SendError.weekBOutOfRange
  else if s.useWeekB = true ∧ s.weekB = s.weekA then some SendError.duplicateWeek
  else none

/-- pickWeek of variant V1 (src/App.tsx lines 205-220): rejects a value
equal to the opposite active slot with an alert, otherwise stores it. -/
def pickWeek (s : S) (which : Slot) (value : Int) : S × Option PickError :=
  match which with
  | Slot.A =>
      if s.useWeekB = true ∧ value = s.weekB then (s, some PickError.duplicate)
      else ({ s with weekA := value }, none)
  | Slot.B =>
      if value = s.weekA then (s, some PickError.duplicate)
      else ({ s with weekB := value }, none)

end V1

namespace P0

def DEFAULT_BASE_PRICE : Int := 90

def DEFAULT_LOW_CARB_EXTRA : Int := 10

/-- sumWeekMeals of part_000 (lines 83-87): one addition of the three
cells per day. -/
def sumWeekMeals (q : Qty) : Int :=
  DAYS.foldl (fun total d =>
    total + (q d MealType.Meat + q d MealType.Veg + q d MealType.LowCarb)) 0

/-- sumWeekCost of part_000 (lines 89-101), parameterized by the week
pricing (basePrice, lowCarbExtra). -/
def sumWeekCost (q : Qty) (basePrice lowCarbExtra : Int) : Int :=
  DAYS.foldl (fun total d =>
    total + q d MealType.Meat * basePrice + q d MealType.Veg * basePrice
      + q d MealType.LowCarb * (basePrice + lowCarbExtra)) 0

/-- A part_000 catalog week entry; only the fields the embedded operations
read (title/dateRange for labels, price overrides for totals). -/
structure WeeklyMenu where
  title : String
  dateRange : Option String
  price : Option Int
  lowCarbExtra : Option Int

/-- The 1..48 fallback week list of part_000. -/
def fallbackWeeks : List Int := (List.range 48).map (fun i => (i : Int) + 1)

/-- availableWeeks of part_000: the sorted numeric keys of menus.json, or
the 1..48 fallback when the key list is empty. -/
def availableWeeksOf (sortedKeys : List Int) : List Int :=
  if sortedKeys = [] then fallbackWeeks else sortedKeys

/-- The part_000 form state.  availableWeeks holds the value of the
availableWeeks memo (availableWeeksOf of the sorted menu keys). -/
structure S where
  name : String
  notes : String
  useWeekB : Bool
  weekA : Int
  weekB : Int
  qtyA : Qty
  qtyB : Qty
  availableWeeks : List Int
  menus : Int → Option WeeklyMenu

/-- getPricingForWeek of part_000 (lines 160-165). -/
def getPricingForWeek (s : S) (w : Int) : Int × Int :=
  match s.menus w with
  | some m => (m.price.getD DEFAULT_BASE_PRICE, m.lowCarbExtra.getD DEFAULT_LOW_CARB_EXTRA)
  | none => (DEFAULT_BASE_PRICE, DEFAULT_LOW_CARB_EXTRA)

/-- totalMeals of part_000: week A always, week B only when biweekly. -/
def totalMeals (s : S) : Int :=
  sumWeekMeals s.qtyA + (if s.useWeekB then sumWeekMeals s.qtyB else 0)

/-- totalCost of part_000: each grid priced with its own week pricing. -/
def totalCost (s : S) : Int :=
  sumWeekCost s.qtyA (getPricingForWeek s s.weekA).1 (getPricingForWeek s s.weekA).2
  + (if s.useWeekB then
      sumWeekCost s.qtyB (getPricingForWeek s s.weekB).1 (getPricingForWeek s s.weekB).2
    else 0)

/-- clearOrder of part_000 (lines 199-213): resets name, notes, biweekly,
both grids, weekA to the first available week (or 1), weekB to the first
available week different from weekA (fallback first+1, or 47 from 48). -/
def clearOrder (s : S) : S :=
  let first := s.availableWeeks.head?.getD 1
  { s with
    name := "", notes := "", useWeekB := false,
    qtyA := emptyWeekQuantities, qtyB := emptyWeekQuantities,
    weekA := first,
    weekB := (s.availableWeeks.find? (fun w => w != first)).getD
      (if first = 48 then 47 else first + 1) }

/-- pickWeek of part_000 (lines 297-318): rejects duplicates; when slot A
changes, re-picks weekB if it became invalid or equal to the new value. -/
def pickWeek (s : S) (which : Slot) (value : Int) : S × Option PickError :=
  match which with
  | Slot.A =>
      if s.useWeekB = true ∧ value = s.weekB then (s, some PickError.duplicate)
      else
        if s.useWeekB = true ∧ (¬ s.weekB ∈ s.availableWeeks ∨ s.weekB = value) then
          match s.availableWeeks.find? (fun w => w != value) with
          | some nxt => ({ s with weekA := value, weekB := nxt }, none)
          | none => ({ s with weekA := value }, none)
        else ({ s with weekA := value }, none)
  | Slot.B =>
      if value = s.weekA then (s, some PickError.duplicate)
      else ({ s with weekB := value }, none)

end P0

namespace V3

def PRICE_MEAT : Int := 90

def PRICE_VEG : Int := 90

def PRICE_LOW_CARB : Int := 100

/-- priceFor of variant V3 (src/App.tsx lines 1004-1008). -/
def priceFor : MealType → Int
  | MealType.Meat => PRICE_MEAT
  | MealType.Veg => PRICE_VEG
  | MealType.LowCarb => PRICE_LOW_CARB

/-- sumWeekMeals of variant V3 (lines 1014-1018). -/
def sumWeekMeals (q : Qty) : Int :=
  DAYS.foldl (fun total d => MEAL_TYPES.foldl (fun t m => t + q d m) total) 0

/-- sumWeekCost of variant V3 (lines 1020-1026). -/
def sumWeekCost (q : Qty) : Int :=
  DAYS.foldl (fun total d => MEAL_TYPES.foldl (fun t m => t + q d m * priceFor m) total) 0

/-- LOW_CARB_NOTE of variant V3. -/
def LOW_CARB_NOTE : String :=
  "Low Carb meals follow the same menu as above; however, starchy sides (e.g., potatoes, rice, pasta, couscous) will be substituted with a suitable low-carb alternative such as cauliflower rice or seasonal vegetables, where appropriate."

/-- A per-day catalog entry of variant V3. -/
structure DayMenu where
  Meat : Option MenuItem
  Veg : Option MenuItem
  note : Option String

/-- A weekly catalog entry of variant V3. -/
structure WeeklyMenu where
  title : String
  dateRange : Option String
  days : DayName → Option DayMenu

/-- The variant V3 form state.  menus is the loaded menus.json record (the
numeric and string key lookup of getMenuForWeek is merged into one map);
availableWeeks is the availableWeeks memo (sorted finite numeric keys of
menus, empty when the catalog is empty or failed to load). -/
structure S where
  name : String
  notes : String
  useWeekB : Bool
  weekA : Int
  weekB : Int
  qtyA : Qty
  qtyB : Qty
  availableWeeks : List Int
  menus : Int → Option WeeklyMenu

/-- getMenuForWeek of variant V3 (lines 1132-1137). -/
def getMenuForWeek (s : S) (w : Int) : Option WeeklyMenu := s.menus w

/-- getMealParts of variant V3 (lines 1140-1151): Low Carb is answered
first with the fixed note; otherwise the day menu item, with the
"Menu item coming soon." placeholder when absent. -/
def getMealParts (menu : Option WeeklyMenu) (day : DayName) (meal : MealType) : MenuItem :=
  match meal with
  | MealType.LowCarb => { name := "Low Carb", description := LOW_CARB_NOTE }
  | MealType.Meat =>
      match (menu.bind (fun mn => mn.days day)).bind (fun dm => dm.Meat) with
      | some it => it
      | none => { name := "Menu item coming soon.", description := "" }
  | MealType.Veg =>
      match (menu.bind (fun mn => mn.days day)).bind (fun dm => dm.Veg) with
      | some it => it
      | none => { name := "Menu item coming soon.", description := "" }

/-- clampWeek of variant V3 (lines 1153-1156): a non-finite input becomes
the first available week (or 1 when none); a finite input is clamped with
Math.min(48, Math.max(1, n)). -/
def clampWeek (avail : List Int) (n : JSNum) : Int :=
  match n with
  | JSNum.int m => min 48 (max 1 m)
  | _ => avail.head?.getD 1

/-- The availability rejection alert of setWeekSafely. -/
inductive WeekError where
  | menuNotAvailable (week : Int)
  deriving DecidableEq

/-- The body of setWeekSafely after clamping (lines 1161-1181): reject
when a nonempty catalog does not list the clamped week; otherwise store it
in the chosen slot, relocating the opposite slot to the first different
available week when biweekly is on, the clamped week collides and at least
two weeks are available. -/
def weekUpdate (s : S) (which : Slot) (next : Int) : S × Option WeekError :=
  if 0 < s.availableWeeks.length ∧ ¬ next ∈ s.availableWeeks then
    (s, some (WeekError.menuNotAvailable next))
  else
    match which with
    | Slot.A =>
        if s.useWeekB = true ∧ next = s.weekB ∧ 1 < s.availableWeeks.length then
          match s.availableWeeks.find? (fun w => w != next) with
          | some alt => ({ s with weekB := alt, weekA := next }, none)
          | none => ({ s with weekA := next }, none)
        else ({ s with weekA := next }, none)
    | Slot.B =>
        if s.useWeekB = true ∧ next = s.weekA ∧ 1 < s.availableWeeks.length then
          match s.availableWeeks.find? (fun w => w != next) with
          | some alt => ({ s with weekA := alt, weekB := next }, none)
          | none => ({ s with weekB := next }, none)
        else ({ s with weekB := next }, none)

/-- setWeekSafely of variant V3 (lines 1158-1182). -/
def setWeekSafely (s : S) (which : Slot) (n : JSNum) : S × Option WeekError :=
  weekUpdate s which (clampWeek s.availableWeeks n)

/-- clearOrder of variant V3 (lines 1199-1203): resets the two grids and
the notes, nothing else. -/
def clearOrder (s : S) : S :=
  { s with qtyA := emptyWeekQuantities, qtyB := emptyWeekQuantities, notes := "" }

/-- totalMeals of variant V3 (lines 1206-1218). -/
def totalMeals (s : S) : Int :=
  sumWeekMeals s.qtyA + (if s.useWeekB then sumWeekMeals s.qtyB else 0)

/-- totalCost of variant V3 (lines 1206-1219). -/
def totalCost (s : S) : Int :=
  sumWeekCost s.qtyA + (if s.useWeekB then sumWeekCost s.qtyB else 0)

/-- The ` (dateRange)` header suffix; the JS conditional tests truthiness,
so an empty dateRange string also yields no suffix. -/
def dateRangeSuffix (menu : Option WeeklyMenu) : String :=
  match menu with
  | none => ""
  | some m =>
      match m.dateRange with
      | none => ""
      | some dr => if dr = "" then "" else " (" ++ dr ++ ")"

/-- buildDetailedLinesForWeek of variant V3 (lines 1224-1258). -/
def buildDetailedLinesForWeek (s : S) (w : Int) (q : Qty) : List String :=
  let menu := getMenuForWeek s w
  let body := DAYS.foldl (fun lines day =>
    let dayLines := MEAL_TYPES.foldl (fun dl meal =>
      let count := q day meal
      if count ≤ 0 then dl
      else
        let parts := getMealParts menu day meal
        let nameOnly :=
          if meal = MealType.LowCarb then "Low Carb"
          else (if parts.name = "" then "Menu item" else parts.name)
        dl ++ ["- " ++ mealStr meal ++ ": " ++ jsString count ++ " (" ++ nameOnly ++ ")"]) []
    if 0 < dayLines.length then (lines ++ [dayStr day]) ++ dayLines else lines)
    ["Week " ++ pad2 w ++ dateRangeSuffix menu]
  body
  ++ ["Subtotal: " ++ jsString (sumWeekMeals q) ++ " meals · " ++ formatRand (sumWeekCost q)]
  ++ [""]

/-- buildWhatsAppWeekLines of variant V3 (lines 1298-1323). -/
def buildWhatsAppWeekLines (s : S) (w : Int) (q : Qty) : List String :=
  let menu := getMenuForWeek s w
  DAYS.foldl (fun lines day =>
    let meat := q day MealType.Meat
    let veg := q day MealType.Veg
    let low := q day MealType.LowCarb
    let parts :=
      (if 0 < meat then ["x" ++ jsString meat ++ " Meat"] else [])
      ++ (if 0 < veg then ["x" ++ jsString veg ++ " Veg"] else [])
      ++ (if 0 < low then ["x" ++ jsString low ++ " Low Carb"] else [])
    if 0 < parts.length then lines ++ [dayShort day ++ ": " ++ String.intercalate " " parts]
    else lines)
    ["Week " ++ pad2 w ++ dateRangeSuffix menu]

/-- The lines of the detailed on-screen summary (lines 1263-1281),
before trailing blank lines are popped. -/
def summaryLines (s : S) : List String :=
  ["Meal Order", "Name: " ++ (if jsTrim s.name = "" then "[name]" else jsTrim s.name), ""]
  ++ buildDetailedLinesForWeek s s.weekA s.qtyA
  ++ (if s.useWeekB = true ∧ s.weekB ≠ s.weekA then buildDetailedLinesForWeek s s.weekB s.qtyB
      else [])
  ++ ["TOTAL: " ++ jsString (totalMeals s) ++ " meals · " ++ formatRand (totalCost s)]
  ++ (if jsTrim s.notes = "" then [] else ["", "Notes: " ++ jsTrim s.notes])

/-- onScreenSummaryText of variant V3 (lines 1260-1295): empty string when
there are no selections, otherwise the popped lines joined by newlines. -/
def onScreenSummaryText (s : S) : String :=
  if 0 < totalMeals s then String.intercalate "\n" (popTrailingEmpty (summaryLines s)) else ""

/-- The lines of the simplified WhatsApp message (lines 1328-1346),
before trailing blank lines are popped. -/
def whatsappLines (s : S) : List String :=
  ["Meal Order", "Name: " ++ (if jsTrim s.name = "" then "[name]" else jsTrim s.name), ""]
  ++ buildWhatsAppWeekLines s s.weekA s.qtyA
  ++ (if s.useWeekB = true ∧ s.weekB ≠ s.weekA then
        [""] ++ buildWhatsAppWeekLines s s.weekB s.qtyB
      else [])
  ++ ["", "TOTAL: " ++ jsString (totalMeals s) ++ " meals · " ++ formatRand (totalCost s)]
  ++ (if jsTrim s.notes = "" then [] else ["", "Notes: " ++ jsTrim s.notes])

/-- whatsappText of variant V3 (lines 1325-1349): empty string when there
are no selections, otherwise the popped lines joined by newlines. -/
def whatsappText (s : S) : String :=
  if 0 < totalMeals s then String.intercalate "\n" (popTrailingEmpty (whatsappLines s)) else ""

end V3

/-! Concrete states used to evaluate the operations on explicit inputs. -/

/-- The grid of the pricing scenario: Monday Meat 2, Wednesday Veg 1, all
other cells zero. -/
def scenarioGrid : Qty := fun d m =>
  if d = DayName.Monday ∧ m = MealType.Meat then 2
  else if d = DayName.Wednesday ∧ m = MealType.Veg then 1
  else 0

/-- The freshly initialized variant V3 session: empty name and notes, both
grids zero, biweekly off, weeks 1 and 2, no catalog loaded. -/
def emptySession : V3.S :=
  { name := "", notes := "", useWeekB := false, weekA := 1, weekB := 2,
    qtyA := emptyWeekQuantities, qtyB := emptyWeekQuantities,
    availableWeeks := [], menus := fun _ => none }

/-- The freshly initialized variant V1 state. -/
def emptyV1 : V1.S :=
  { name := "", notes := "", weekA := 1, useWeekB := false, weekB := 2,
    qtyA := emptyWeekQuantities, qtyB := emptyWeekQuantities }

/-- A variant V3 state with an unconstrained (empty) catalog and week A
set to 1. -/
def c3state : V3.S := emptySession

/-- A variant V3 state whose catalog lists only week 5, so the week-49
request (clamped to 48) is rejected by the availability check. -/
def c3rej : V3.S := { emptySession with availableWeeks := [5] }

/-- A variant V1 state whose week A is out of range at send time. -/
def v1bad : V1.S := { emptyV1 with weekA := 49 }

/-- A variant V3 state with biweekly on, weeks 1 and 2 and an empty
catalog (menus.json absent or not yet loaded). -/
def c4state : V3.S := { emptySession with useWeekB := true }

/-- A variant V3 state with biweekly on and a two-week catalog. -/
def c4w : V3.S := { emptySession with useWeekB := true, availableWeeks := [1, 2] }

/-- A variant V3 state with data in every resettable field. -/
def c7state : V3.S :=
  { name := "Bob", notes := "keep", useWeekB := true, weekA := 7, weekB := 9,
    qtyA := fun _ _ => 1, qtyB := fun _ _ => 2,
    availableWeeks := [], menus := fun _ => none }

/-- A part_000 state whose catalog lists weeks 3 and 4. -/
def u7 : P0.S :=
  { name := "Ann", notes := "x", useWeekB := true, weekA := 9, weekB := 9,
    qtyA := fun _ _ => 1, qtyB := fun _ _ => 1,
    availableWeeks := [3, 4], menus := fun _ => none }

/-- A variant V1 state with biweekly off and leftover grid B data. -/
def sW5 : V1.S := { emptyV1 with qtyB := fun _ _ => 3 }

/-- A part_000 state with biweekly off and leftover grid B data. -/
def uW5 : P0.S :=
  { name := "", notes := "", useWeekB := false, weekA := 1, weekB := 2,
    qtyA := scenarioGrid, qtyB := fun _ _ => 3,
    availableWeeks := [], menus := fun _ => none }

/-- A variant V3 session whose notes are whitespace only. -/
def ws3 : V3.S := { emptySession with name := "A", notes := "   " }

/-- A variant V3 session with selections and notes that trim to "hi". -/
def ns3 : V3.S := { emptySession with notes := " hi ", qtyA := fun _ _ => 1 }

/-- A variant V1 state whose notes are whitespace only. -/
def ws1 : V1.S := { emptyV1 with notes := " " }

/-- A variant V1 state with notes that trim to "ok". -/
def ns1 : V1.S := { emptyV1 with notes := " ok " }

/-- A variant V3 state whose catalog lists the out-of-range key 49. -/
def c10state : V3.S := { emptySession with availableWeeks := [49] }

/-- A variant V3 state with biweekly on and catalog weeks 3 and 4 within
range. -/
def sW10 : V3.S :=
  { emptySession with useWeekB := true, weekA := 3, weekB := 4, availableWeeks := [3, 4] }

/-! Helper lemmas. -/

theorem clamp0_nonneg (n : Int) : 0 ≤ clamp0 n := by
  unfold clamp0; split <;> omega

theorem le_clamp0 (n : Int) : n ≤ clamp0 n := by
  unfold clamp0; split <;> omega

theorem foldClamp_nonneg (ds : List Int) : ∀ q : Int, 0 ≤ q → 0 ≤ foldClamp ds q := by
  induction ds with
  | nil => intro q h; simpa [foldClamp] using h
  | cons d t ih =>
      intro q _
      have : foldClamp (d :: t) q = foldClamp t (clamp0 (q + d)) := rfl
      rw [this]
      exact ih _ (clamp0_nonneg _)

theorem foldClamp_ge_sum (ds : List Int) : ∀ q : Int, q + ds.sum ≤ foldClamp ds q := by
  induction ds with
  | nil => intro q; simp [foldClamp]
  | cons d t ih =>
      intro q
      have h1 : foldClamp (d :: t) q = foldClamp t (clamp0 (q + d)) := rfl
      rw [h1, List.sum_cons]
      have h2 := ih (clamp0 (q + d))
      have h3 := le_clamp0 (q + d)
      omega

theorem foldClamp_eq_sum (ds : List Int) :
    ∀ q : Int, 0 ≤ q → (∀ d ∈ ds, 0 ≤ d) → foldClamp ds q = q + ds.sum := by
  induction ds with
  | nil => intro q _ _; simp [foldClamp]
  | cons d t ih =>
      intro q hq hds
      have hd : 0 ≤ d := hds d (by simp)
      have h1 : foldClamp (d :: t) q = foldClamp t (clamp0 (q + d)) := rfl
      have h2 : clamp0 (q + d) = q + d := by unfold clamp0; split <;> omega
      rw [h1, h2, List.sum_cons, ih (q + d) (by omega) (fun x hx => hds x (by simp [hx]))]
      omega

theorem applyCalls_cell (day : DayName) (meal : MealType) (ds : List Int) :
    ∀ g : Qty, (ds.foldl (fun g2 delta => changeQty g2 day meal delta) g) day meal
      = foldClamp ds (g day meal) := by
  induction ds with
  | nil => intro g; rfl
  | cons d t ih =>
      intro g
      have h1 : (changeQty g day meal d) day meal = clamp0 (g day meal + d) := by
        simp [changeQty]
      have h2 : foldClamp (d :: t) (g day meal) = foldClamp t (clamp0 (g day meal + d)) := rfl
      rw [List.foldl_cons, ih (changeQty g day meal d), h1, h2]

theorem applyCalls_other (day : DayName) (meal : MealType) (ds : List Int)
    (d : DayName) (m : MealType) (h : d ≠ day ∨ m ≠ meal) :
    ∀ g : Qty, (ds.foldl (fun g2 delta => changeQty g2 day meal delta) g) d m = g d m := by
  induction ds with
  | nil => intro g; rfl
  | cons dl t ih =>
      intro g
      rw [List.foldl_cons, ih (changeQty g day meal dl)]
      have : ¬ (d = day ∧ m = meal) := by tauto
      simp [changeQty, this]

theorem exists_ne_of_nodup {l : List Int} (hnd : l.Nodup) (hl : 2 ≤ l.length) (x : Int) :
    ∃ y ∈ l, y ≠ x := by
  cases l with
  | nil => simp at hl
  | cons a t =>
      cases t with
      | nil => simp at hl
      | cons b t2 =>
          have hab : a ≠ b := by
            have h := List.nodup_cons.mp hnd
            intro he
            exact h.1 (he ▸ List.mem_cons_self b t2)
          by_cases hax : a = x
          · exact ⟨b, by simp, by rw [← hax]; exact fun he => hab he.symm⟩
          · exact ⟨a, by simp, hax⟩

theorem trim_empty : jsTrim "" = "" := rfl

theorem notes_line_ne_empty (x : String) : "Notes: " ++ x ≠ "" := by
  intro h
  have h2 := congrArg String.length h
  rw [String.length_append] at h2
  have h7 : ("Notes: " : String).length = 7 := rfl
  have h0 : ("" : String).length = 0 := rfl
  omega

theorem popTrailingEmpty_snoc2 (l : List String) (x : String) (hx : x ≠ "") :
    popTrailingEmpty (l ++ ["", x]) = l ++ ["", x]
  ∧ (l ++ ["", x]).getLast? = some x := by
  constructor
  · unfold popTrailingEmpty
    have h1 : (l ++ ["", x]).reverse = x :: "" :: l.reverse := by simp
    rw [h1, List.dropWhile_cons]
    have hx2 : (x == "") = false := by
      simpa [beq_eq_false_iff_ne] using hx
    rw [hx2]
    simp
  · rw [show l ++ ["", x] = (l ++ [""]) ++ [x] by simp]
    exact List.getLast?_concat _

/-! Claim theorems. -/

/-- C1: the claim states that for every cell and every sequence of
adjust/changeQty calls targeting that cell from the empty grid, the
resulting quantity equals max(0, sum of the deltas).  This is false: the
code clamps at every step, so the sequence [-1, +1] leaves the cell at 1
while max(0, -1 + 1) = 0. -/
theorem claim1_cex :
    applyCalls DayName.Monday MealType.Meat [-1, 1] DayName.Monday MealType.Meat = 1
  ∧ max 0 (List.sum [(-1 : Int), 1]) = 0
  ∧ applyCalls DayName.Monday MealType.Meat [-1, 1] DayName.Monday MealType.Meat
      ≠ max 0 (List.sum [(-1 : Int), 1]) := by
  refine ⟨by decide, by decide, by decide⟩

/-- C1 (amended): for every cell and every sequence of changeQty calls
targeting that cell from the empty grid, the resulting quantity is never
negative and is at least max(0, sum of deltas); cells not targeted stay 0;
when every delta is nonnegative the resulting quantity equals the sum of
the deltas (so in particular max(0, sum)). -/
theorem claim1_thm (day : DayName) (meal : MealType) (ds : List Int) :
    0 ≤ applyCalls day meal ds day meal
  ∧ max 0 ds.sum ≤ applyCalls day meal ds day meal
  ∧ (∀ (d : DayName) (m : MealType), d ≠ day ∨ m ≠ meal → applyCalls day meal ds d m = 0)
  ∧ ((∀ delta ∈ ds, 0 ≤ delta) → applyCalls day meal ds day meal = ds.sum) := by
  have hcell : applyCalls day meal ds day meal = foldClamp ds 0 := by
    have := applyCalls_cell day meal ds emptyWeekQuantities
    simpa [applyCalls, emptyWeekQuantities] using this
  refine ⟨?_, ?_, ?_, ?_⟩
  · rw [hcell]; exact foldClamp_nonneg ds 0 le_rfl
  · rw [hcell]
    refine max_le ?_ ?_
    · exact foldClamp_nonneg ds 0 le_rfl
    · have := foldClamp_ge_sum ds 0
      omega
  · intro d m h
    have := applyCalls_other day meal ds d m h emptyWeekQuantities
    simpa [applyCalls, emptyWeekQuantities] using this
  · intro h
    rw [hcell, foldClamp_eq_sum ds 0 le_rfl h]
    omega

/-- C1 witness: a concrete all-increment run reaches the sum of deltas,
and an untargeted cell stays 0. -/
theorem claim1_wit :
    applyCalls DayName.Monday MealType.Meat [2, 3] DayName.Monday MealType.Meat
      = List.sum [(2 : Int), 3]
  ∧ applyCalls DayName.Tuesday MealType.Veg [2, 3] DayName.Monday MealType.Meat = 0 := by
  refine ⟨(claim1_thm DayName.Monday MealType.Meat [2, 3]).2.2.2 (by decide),
    (claim1_thm DayName.Tuesday MealType.Veg [2, 3]).2.2.1 DayName.Monday MealType.Meat
      (Or.inl (by decide))⟩

/-- C2: totalMeals is the sum of the quantities of all day-by-meal-type
cells, and totalCost weighs every cell with basePrice (plus lowCarbExtra
for Low Carb); with prices Meat 90, Veg 90, Low Carb 100, the grid with
Monday Meat 2 and Wednesday Veg 1 yields 3 meals and cost 270, rendered as
"R270.00". -/
theorem claim2_thm (q : Qty) (bp ex : Int) :
    V1.sumWeekMeals q =
        q DayName.Monday MealType.Meat + q DayName.Monday MealType.Veg
      + q DayName.Monday MealType.LowCarb
      + q DayName.Tuesday MealType.Meat + q DayName.Tuesday MealType.Veg
      + q DayName.Tuesday MealType.LowCarb
      + q DayName.Wednesday MealType.Meat + q DayName.Wednesday MealType.Veg
      + q DayName.Wednesday MealType.LowCarb
      + q DayName.Thursday MealType.Meat + q DayName.Thursday MealType.Veg
      + q DayName.Thursday MealType.LowCarb
      + q DayName.Friday MealType.Meat + q DayName.Friday MealType.Veg
      + q DayName.Friday MealType.LowCarb
  ∧ V1.sumWeekCost q =
        q DayName.Monday MealType.Meat * 90 + q DayName.Monday MealType.Veg * 90
      + q DayName.Monday MealType.LowCarb * (90 + 10)
      + q DayName.Tuesday MealType.Meat * 90 + q DayName.Tuesday MealType.Veg * 90
      + q DayName.Tuesday MealType.LowCarb * (90 + 10)
      + q DayName.Wednesday MealType.Meat * 90 + q DayName.Wednesday MealType.Veg * 90
      + q DayName.Wednesday MealType.LowCarb * (90 + 10)
      + q DayName.Thursday MealType.Meat * 90 + q DayName.Thursday MealType.Veg * 90
      + q DayName.Thursday MealType.LowCarb * (90 + 10)
      + q DayName.Friday MealType.Meat * 90 + q DayName.Friday MealType.Veg * 90
      + q DayName.Friday MealType.LowCarb * (90 + 10)
  ∧ P0.sumWeekCost q bp ex =
        q DayName.Monday MealType.Meat * bp + q DayName.Monday MealType.Veg * bp
      + q DayName.Monday MealType.LowCarb * (bp + ex)
      + q DayName.Tuesday MealType.Meat * bp + q DayName.Tuesday MealType.Veg * bp
      + q DayName.Tuesday MealType.LowCarb * (bp + ex)
      + q DayName.Wednesday MealType.Meat * bp + q DayName.Wednesday MealType.Veg * bp
      + q DayName.Wednesday MealType.LowCarb * (bp + ex)
      + q DayName.Thursday MealType.Meat * bp + q DayName.Thursday MealType.Veg * bp
      + q DayName.Thursday MealType.LowCarb * (bp + ex)
      + q DayName.Friday MealType.Meat * bp + q DayName.Friday MealType.Veg * bp
      + q DayName.Friday MealType.LowCarb * (bp + ex)
  ∧ V3.sumWeekMeals scenarioGrid = 3
  ∧ V3.sumWeekCost scenarioGrid = 270
  ∧ V1.sumWeekMeals scenarioGrid = 3
  ∧ V1.sumWeekCost scenarioGrid = 270
  ∧ formatRand 270 = "R270.00" := by
  refine ⟨?_, ?_, ?_, by decide, by decide, by decide, by decide, by decide⟩
  · simp [V1.sumWeekMeals, DAYS, MEAL_TYPES]
  · simp [V1.sumWeekCost, DAYS, MEAL_TYPES, V1.BASE_PRICE, V1.LOW_CARB_EXTRA]
  · simp [P0.sumWeekCost, DAYS]

/-- C5: when biweekly is off, the derived totals come from grid A alone;
grid B contributes nothing even when it holds nonzero leftovers.  Stated
for the two variants the totals memos of which the claim cites (variant V1
and part_000). -/
theorem claim5_thm (s : V1.S) (u : P0.S) (qB : Qty)
    (hs : s.useWeekB = false) (hu : u.useWeekB = false) :
    V1.totalMeals s = V1.sumWeekMeals s.qtyA
  ∧ V1.totalCost s = V1.sumWeekCost s.qtyA
  ∧ V1.totalMeals { s with qtyB := qB } = V1.totalMeals s
  ∧ V1.totalCost { s with qtyB := qB } = V1.totalCost s
  ∧ P0.totalMeals u = P0.sumWeekMeals u.qtyA
  ∧ P0.totalCost u = P0.sumWeekCost u.qtyA (P0.getPricingForWeek u u.weekA).1
      (P0.getPricingForWeek u u.weekA).2
  ∧ P0.totalMeals { u with qtyB := qB } = P0.totalMeals u
  ∧ P0.totalCost { u with qtyB := qB } = P0.totalCost u := by
  obtain ⟨nm, nt, wa, ub, wb, qa, qb⟩ := s
  obtain ⟨nm2, nt2, ub2, wa2, wb2, qa2, qb2, av2, mn2⟩ := u
  dsimp at hs hu
  subst hs; subst hu
  refine ⟨?_, ?_, ?_, ?_, ?_, ?_, ?_, ?_⟩ <;>
    simp [V1.totalMeals, V1.totalCost, P0.totalMeals, P0.totalCost, P0.getPricingForWeek]

/-- C5 witness: concrete biweekly-off states with nonzero leftover grid B
data still total from grid A alone. -/
theorem claim5_wit :
    V1.totalMeals sW5 = V1.sumWeekMeals sW5.qtyA
  ∧ P0.totalMeals uW5 = P0.sumWeekMeals uW5.qtyA := by
  refine ⟨(claim5_thm sW5 uW5 (fun _ _ => 1) rfl rfl).1,
    (claim5_thm sW5 uW5 (fun _ _ => 1) rfl rfl).2.2.2.2.1⟩

/-- C9: the two formatters of variant V3 are pure functions of the session
snapshot, hence deterministic and idempotent (two calls on the same
snapshot give the same string), and they are total: missing catalog data
degrades to the placeholder item "Menu item coming soon." (and Low Carb to
the fixed note) instead of an error. -/
theorem claim9_thm (s : V3.S) :
    V3.onScreenSummaryText s = V3.onScreenSummaryText s
  ∧ V3.whatsappText s = V3.whatsappText s
  ∧ (∀ day : DayName,
        V3.getMealParts none day MealType.Meat
          = { name := "Menu item coming soon.", description := "" }
      ∧ V3.getMealParts none day MealType.Veg
          = { name := "Menu item coming soon.", description := "" })
  ∧ (∀ (menu : Option V3.WeeklyMenu) (day : DayName),
        V3.getMealParts menu day MealType.LowCarb
          = { name := "Low Carb", description := V3.LOW_CARB_NOTE }) :=
  ⟨rfl, rfl, fun _ => ⟨rfl, rfl⟩, fun _ _ => rfl⟩

theorem weekUpdate_some_eq (s : V3.S) (w : Slot) (next : Int) :
    (V3.weekUpdate s w next).2.isSome = true → (V3.weekUpdate s w next).1 = s := by
  unfold V3.weekUpdate
  by_cases hrej : 0 < s.availableWeeks.length ∧ ¬ next ∈ s.availableWeeks
  · rw [if_pos hrej]; intro _; rfl
  · rw [if_neg hrej]
    cases w
    · dsimp only
      by_cases hdup : s.useWeekB = true ∧ next = s.weekB ∧ 1 < s.availableWeeks.length
      · rw [if_pos hdup]
        cases s.availableWeeks.find? (fun x => x != next) <;>
          · intro h; simp at h
      · rw [if_neg hdup]; intro h; simp at h
    · dsimp only
      by_cases hdup : s.useWeekB = true ∧ next = s.weekA ∧ 1 < s.availableWeeks.length
      · rw [if_pos hdup]
        cases s.availableWeeks.find? (fun x => x != next) <;>
          · intro h; simp at h
      · rw [if_neg hdup]; intro h; simp at h

theorem weekUpdate_A_val (s : V3.S) (next : Int) :
    (V3.weekUpdate s Slot.A next).2 = none → (V3.weekUpdate s Slot.A next).1.weekA = next := by
  unfold V3.weekUpdate
  by_cases hrej : 0 < s.availableWeeks.length ∧ ¬ next ∈ s.availableWeeks
  · rw [if_pos hrej]; intro h; simp at h
  · rw [if_neg hrej]
    dsimp only
    by_cases hdup : s.useWeekB = true ∧ next = s.weekB ∧ 1 < s.availableWeeks.length
    · rw [if_pos hdup]
      cases s.availableWeeks.find? (fun x => x != next) <;>
        · intro _; rfl
    · rw [if_neg hdup]; intro _; rfl

theorem weekUpdate_B_val (s : V3.S) (next : Int) :
    (V3.weekUpdate s Slot.B next).2 = none → (V3.weekUpdate s Slot.B next).1.weekB = next := by
  unfold V3.weekUpdate
  by_cases hrej : 0 < s.availableWeeks.length ∧ ¬ next ∈ s.availableWeeks
  · rw [if_pos hrej]; intro h; simp at h
  · rw [if_neg hrej]
    dsimp only
    by_cases hdup : s.useWeekB = true ∧ next = s.weekA ∧ 1 < s.availableWeeks.length
    · rw [if_pos hdup]
      cases s.availableWeeks.find? (fun x => x != next) <;>
        · intro _; rfl
    · rw [if_neg hdup]; intro _; rfl

theorem weekUpdate_B_ne (s : V3.S) (next : Int)
    (hB : s.useWeekB = true) (hnd : s.availableWeeks.Nodup)
    (hlen : 2 ≤ s.availableWeeks.length) :
    (V3.weekUpdate s Slot.B next).2 = none →
    (V3.weekUpdate s Slot.B next).1.weekA ≠ (V3.weekUpdate s Slot.B next).1.weekB := by
  unfold V3.weekUpdate
  by_cases hrej : 0 < s.availableWeeks.length ∧ ¬ next ∈ s.availableWeeks
  · rw [if_pos hrej]; intro h; simp at h
  · rw [if_neg hrej]
    dsimp only
    by_cases hdup : s.useWeekB = true ∧ next = s.weekA ∧ 1 < s.availableWeeks.length
    · rw [if_pos hdup]
      obtain ⟨y, hy, hyne⟩ := exists_ne_of_nodup hnd hlen next
      cases hf : s.availableWeeks.find? (fun x => x != next) with
      | none =>
          exfalso
          have hall := List.find?_eq_none.mp hf y hy
          simp only [bne_iff_ne, ne_eq, Decidable.not_not] at hall
          exact hyne hall
      | some a =>
          have hane : a ≠ next := by
            have := List.find?_some hf
            simpa [bne_iff_ne] using this
          intro _
          simpa using hane
    · rw [if_neg hdup]
      intro _
      have hne : ¬ next = s.weekA := fun he => hdup ⟨hB, he, by omega⟩
      dsimp only
      exact fun he => hne he.symm

theorem clampWeek_int_range (avail : List Int) (m : Int) :
    1 ≤ V3.clampWeek avail (JSNum.int m) ∧ V3.clampWeek avail (JSNum.int m) ≤ 48 := by
  unfold V3.clampWeek
  constructor
  · exact le_min (by omega) (le_max_left 1 m)
  · exact min_le_left 48 _

theorem clampWeek_range (avail : List Int) (n : JSNum)
    (hav : ∀ x ∈ avail, 1 ≤ x ∧ x ≤ 48) :
    1 ≤ V3.clampWeek avail n ∧ V3.clampWeek avail n ≤ 48 := by
  cases n with
  | int m => exact clampWeek_int_range avail m
  | nan =>
      unfold V3.clampWeek
      cases avail with
      | nil => simp
      | cons a t => simpa using hav a (by simp)
  | inf b =>
      unfold V3.clampWeek
      cases avail with
      | nil => simp
      | cons a t => simpa using hav a (by simp)

theorem weekUpdate_range (s : V3.S) (w : Slot) (next : Int)
    (hav : ∀ x ∈ s.availableWeeks, 1 ≤ x ∧ x ≤ 48)
    (hA : 1 ≤ s.weekA ∧ s.weekA ≤ 48) (hB : 1 ≤ s.weekB ∧ s.weekB ≤ 48)
    (hn : 1 ≤ next ∧ next ≤ 48) :
    (1 ≤ (V3.weekUpdate s w next).1.weekA ∧ (V3.weekUpdate s w next).1.weekA ≤ 48)
  ∧ (1 ≤ (V3.weekUpdate s w next).1.weekB ∧ (V3.weekUpdate s w next).1.weekB ≤ 48) := by
  unfold V3.weekUpdate
  by_cases hrej : 0 < s.availableWeeks.length ∧ ¬ next ∈ s.availableWeeks
  · rw [if_pos hrej]; exact ⟨hA, hB⟩
  · rw [if_neg hrej]
    cases w
    · dsimp only
      by_cases hdup : s.useWeekB = true ∧ next = s.weekB ∧ 1 < s.availableWeeks.length
      · rw [if_pos hdup]
        cases hf : s.availableWeeks.find? (fun x => x != next) with
        | none => exact ⟨hn, hB⟩
        | some a =>
            have ha := hav a (List.mem_of_find?_eq_some hf)
            exact ⟨hn, ha⟩
      · rw [if_neg hdup]; exact ⟨hn, hB⟩
    · dsimp only
      by_cases hdup : s.useWeekB = true ∧ next = s.weekA ∧ 1 < s.availableWeeks.length
      · rw [if_pos hdup]
        cases hf : s.availableWeeks.find? (fun x => x != next) with
        | none => exact ⟨hA, hn⟩
        | some a =>
            have ha := hav a (List.mem_of_find?_eq_some hf)
            exact ⟨ha, hn⟩
      · rw [if_neg hdup]; exact ⟨hA, hn⟩

/-- C3: the claim states that setWeek with a week outside 1..48 (for
example 49) is rejected with an error and the stored week is left
unchanged, with no clamped value assigned.  This is false: with an
unconstrained catalog, setWeekSafely(A, 49) reports no error and stores
the clamped value 48 in place of the previous week 1. -/
theorem claim3_cex :
    (V3.setWeekSafely c3state Slot.A (JSNum.int 49)).2 = none
  ∧ (V3.setWeekSafely c3state Slot.A (JSNum.int 49)).1.weekA = 48
  ∧ c3state.weekA = 1 := by
  refine ⟨by decide, by decide, by decide⟩

/-- C3 (amended): an out-of-range week passed to setWeekSafely is not
rejected as out of range: it is first clamped into [1, 48] (49 stores 48);
the only rejection is the catalog availability check, and a rejected call
leaves the whole state unchanged; variant V1 separately rejects an
out-of-range week A at send time with its own alert. -/
theorem claim3_thm (s : V3.S) (w : Slot) (n : JSNum) (q : Int) (t : V1.S) :
    ((V3.setWeekSafely s w n).2.isSome = true → (V3.setWeekSafely s w n).1 = s)
  ∧ (48 < q → (V3.setWeekSafely s Slot.A (JSNum.int q)).2 = none →
       (V3.setWeekSafely s Slot.A (JSNum.int q)).1.weekA = 48)
  ∧ (48 < q → (V3.setWeekSafely s Slot.B (JSNum.int q)).2 = none →
       (V3.setWeekSafely s Slot.B (JSNum.int q)).1.weekB = 48)
  ∧ (t.weekA < 1 ∨ 48 < t.weekA → V1.sendValidate t = some V1.SendError.weekAOutOfRange) := by
  have hclamp : 48 < q → V3.clampWeek s.availableWeeks (JSNum.int q) = 48 := by
    intro hq
    unfold V3.clampWeek
    dsimp only
    rw [max_eq_right (by omega : (1 : Int) ≤ q), min_eq_left (by omega : (48 : Int) ≤ q)]
  refine ⟨weekUpdate_some_eq s w (V3.clampWeek s.availableWeeks n), ?_, ?_, ?_⟩
  · intro hq he
    have h := weekUpdate_A_val s (V3.clampWeek s.availableWeeks (JSNum.int q)) he
    exact h.trans (hclamp hq)
  · intro hq he
    have h := weekUpdate_B_val s (V3.clampWeek s.availableWeeks (JSNum.int q)) he
    exact h.trans (hclamp hq)
  · intro h
    unfold V1.sendValidate
    rw [if_pos h]

/-- C3 witness: a constrained catalog rejects and leaves the state
unchanged; an unconstrained catalog stores the clamp of 49; a variant V1
state with week 49 fails send validation. -/
theorem claim3_wit :
    (V3.setWeekSafely c3rej Slot.A (JSNum.int 49)).1 = c3rej
  ∧ (V3.setWeekSafely c3state Slot.A (JSNum.int 49)).1.weekA = 48
  ∧ V1.sendValidate v1bad = some V1.SendError.weekAOutOfRange := by
  refine ⟨(claim3_thm c3rej Slot.A (JSNum.int 49) 49 v1bad).1 (by decide),
    (claim3_thm c3state Slot.A (JSNum.int 49) 49 v1bad).2.1 (by decide) (by decide),
    (claim3_thm c3state Slot.A (JSNum.int 49) 49 v1bad).2.2.2 (Or.inr (by decide))⟩

/-- C4: the claim states that while biweekly is enabled, no execution of a
week-B set operation completes with weekA equal to weekB.  This is false
for setWeekSafely: with an empty catalog (fewer than two available weeks)
setWeekSafely(B, weekA) completes without error and with both slots equal. -/
theorem claim4_cex :
    (V3.setWeekSafely c4state Slot.B (JSNum.int 1)).2 = none
  ∧ c4state.useWeekB = true
  ∧ c4state.weekA = 1
  ∧ (V3.setWeekSafely c4state Slot.B (JSNum.int 1)).1.weekA
      = (V3.setWeekSafely c4state Slot.B (JSNum.int 1)).1.weekB := by
  refine ⟨by decide, by decide, by decide, by decide⟩

/-- C4 (amended): while biweekly is enabled, pickWeek (variants V1 and
part_000) always rejects setting slot B to weekA, leaving the state
unchanged, and a successful pickWeek of slot B never ends with the two
slots equal; setWeekSafely never completes with weekA = weekB provided the
catalog lists at least two distinct available weeks — with fewer, the
duplicate assignment goes through unchecked. -/
theorem claim4_thm (s : V3.S) (n : JSNum)
    (hB : s.useWeekB = true) (hnd : s.availableWeeks.Nodup)
    (hlen : 2 ≤ s.availableWeeks.length) :
    ((V3.setWeekSafely s Slot.B n).2 = none →
      (V3.setWeekSafely s Slot.B n).1.weekA ≠ (V3.setWeekSafely s Slot.B n).1.weekB)
  ∧ (∀ t : V1.S, V1.pickWeek t Slot.B t.weekA = (t, some PickError.duplicate))
  ∧ (∀ (t : V1.S) (v : Int), (V1.pickWeek t Slot.B v).2 = none →
      (V1.pickWeek t Slot.B v).1.weekA ≠ (V1.pickWeek t Slot.B v).1.weekB)
  ∧ (∀ u : P0.S, P0.pickWeek u Slot.B u.weekA = (u, some PickError.duplicate)) := by
  refine ⟨weekUpdate_B_ne s (V3.clampWeek s.availableWeeks n) hB hnd hlen, ?_, ?_, ?_⟩
  · intro t
    unfold V1.pickWeek
    rw [if_pos rfl]
  · intro t v
    unfold V1.pickWeek
    by_cases hv : v = t.weekA
    · rw [if_pos hv]; intro h; simp at h
    · rw [if_neg hv]
      intro _
      dsimp only
      exact fun he => hv he.symm
  · intro u
    unfold P0.pickWeek
    rw [if_pos rfl]

/-- C4 witness: with a two-week catalog, setting slot B to the value of
slot A auto-relocates slot A, so the result has distinct slots; pickWeek
rejects the duplicate outright. -/
theorem claim4_wit :
    (V3.setWeekSafely c4w Slot.B (JSNum.int 1)).1.weekA
      ≠ (V3.setWeekSafely c4w Slot.B (JSNum.int 1)).1.weekB
  ∧ V1.pickWeek emptyV1 Slot.B emptyV1.weekA = (emptyV1, some PickError.duplicate) := by
  refine ⟨(claim4_thm c4w (JSNum.int 1) rfl (by decide) (by decide)).1 (by decide),
    (claim4_thm c4w (JSNum.int 1) rfl (by decide) (by decide)).2.1 emptyV1⟩

/-- C10: the claim states that setWeekSafely never stores a week outside
[1, 48].  This is false when the catalog itself lists an out-of-range
week: with availableWeeks = [49], a NaN input is mapped by clampWeek to
the first available week 49, which passes the availability check and is
stored. -/
theorem claim10_cex :
    (V3.setWeekSafely c10state Slot.A JSNum.nan).2 = none
  ∧ (V3.setWeekSafely c10state Slot.A JSNum.nan).1.weekA = 49
  ∧ ¬ ((V3.setWeekSafely c10state Slot.A JSNum.nan).1.weekA ≤ 48) := by
  refine ⟨by decide, by decide, by decide⟩

/-- C10 (amended): clampWeek maps every non-finite input to the first
available week (or 1 when there is none) and clamps every integer input
into [1, 48]; provided every catalog week lies in [1, 48] (in particular
for an empty catalog) and the current slots are in range, setWeekSafely
stores only values in [1, 48] in both slots (and, by construction of the
embedding, only actual integers, never NaN). -/
theorem claim10_thm (avail : List Int) (b : Bool) (s : V3.S) (w : Slot) (n : JSNum)
    (hav : ∀ x ∈ s.availableWeeks, 1 ≤ x ∧ x ≤ 48)
    (hA : 1 ≤ s.weekA ∧ s.weekA ≤ 48) (hBr : 1 ≤ s.weekB ∧ s.weekB ≤ 48) :
    V3.clampWeek avail JSNum.nan = avail.head?.getD 1
  ∧ V3.clampWeek avail (JSNum.inf b) = avail.head?.getD 1
  ∧ (∀ m : Int, 1 ≤ V3.clampWeek avail (JSNum.int m) ∧ V3.clampWeek avail (JSNum.int m) ≤ 48)
  ∧ (1 ≤ (V3.setWeekSafely s w n).1.weekA ∧ (V3.setWeekSafely s w n).1.weekA ≤ 48)
  ∧ (1 ≤ (V3.setWeekSafely s w n).1.weekB ∧ (V3.setWeekSafely s w n).1.weekB ≤ 48) := by
  have hr := weekUpdate_range s w (V3.clampWeek s.availableWeeks n) hav hA hBr
    (clampWeek_range s.availableWeeks n hav)
  exact ⟨rfl, rfl, fun m => clampWeek_int_range avail m, hr.1, hr.2⟩

/-- C10 witness: a NaN input on an in-range two-week catalog stores
in-range weeks in both slots. -/
theorem claim10_wit :
    (1 ≤ (V3.setWeekSafely sW10 Slot.A JSNum.nan).1.weekA
      ∧ (V3.setWeekSafely sW10 Slot.A JSNum.nan).1.weekA ≤ 48)
  ∧ (1 ≤ (V3.setWeekSafely sW10 Slot.A JSNum.nan).1.weekB
      ∧ (V3.setWeekSafely sW10 Slot.A JSNum.nan).1.weekB ≤ 48) := by
  refine ⟨(claim10_thm [] false sW10 Slot.A JSNum.nan (by decide) (by decide) (by decide)).2.2.2.1,
    (claim10_thm [] false sW10 Slot.A JSNum.nan (by decide) (by decide) (by decide)).2.2.2.2⟩

/-- C6: the claim states that on the empty session the outbound message
contains a total line reading 0 meals, R0.00.  This is false: with no
selections whatsappText returns the empty string, which cannot contain
the fifteen-character total text in any position. -/
theorem claim6_cex :
    V3.whatsappText emptySession = ""
  ∧ ¬ (∃ pre post, V3.whatsappText emptySession = pre ++ "0 meals · R0.00" ++ post) := by
  have h : V3.whatsappText emptySession = "" := by decide
  refine ⟨h, ?_⟩
  rintro ⟨pre, post, hx⟩
  rw [h] at hx
  have hlen := congrArg String.length hx
  rw [String.length_append, String.length_append] at hlen
  have hn : ("0 meals · R0.00" : String).length = 15 := by decide
  have h0 : ("" : String).length = 0 := rfl
  omega

/-- C6 (amended): on the empty session totalMeals is 0, totalCost is 0
(rendered "R0.00"), and the outbound message is the empty string — it has
no per-day lines but also no total line, since whatsappText returns ""
when there are no selections; the buildOrderText of variant V1 instead always
renders totals, in its own "Total meals: 0" / "Total cost: R0.00" format. -/
theorem claim6_thm :
    V3.totalMeals emptySession = 0
  ∧ V3.totalCost emptySession = 0
  ∧ formatRand 0 = "R0.00"
  ∧ V3.whatsappText emptySession = ""
  ∧ V3.onScreenSummaryText emptySession = ""
  ∧ V1.buildOrderText emptyV1 =
      "Meal Order\nName: [name]\n\nWeek 01:\nTotal meals (Week 01): 0\nCost (Week 01): R0.00\n\nTotal meals: 0\nTotal cost: R0.00" := by
  refine ⟨by decide, by decide, by decide, by decide, by decide, by decide⟩

/-- C7: the claim states that clear() resets the customer name, the
biweekly flag and the week slots (among the rest).  This is false for the
clearOrder of variant V3 (src/App.tsx lines 1199-1203), which the claim
cites: on a state with name "Bob", biweekly on and week A 7, all three
survive the clear. -/
theorem claim7_cex :
    (V3.clearOrder c7state).name = "Bob"
  ∧ (V3.clearOrder c7state).useWeekB = true
  ∧ (V3.clearOrder c7state).weekA = 7
  ∧ ¬ ((V3.clearOrder c7state).name = "") := by
  refine ⟨by decide, by decide, by decide, by decide⟩

/-- C7 (amended): every clearOrder resets the notes and both grids;
the one of variant V1 also resets the name, the biweekly flag and the
week slots to 1 and 2; the one of part_000 also resets name and biweekly
and moves the slots to the first available catalog week and the first
available week distinct
from it (so the slots are available and distinct for a duplicate-free
catalog with at least two weeks, and are 1 and 2 for the unconstrained
1..48 fallback); the clearOrder of variant V3 resets only the grids and
notes,
leaving name, biweekly flag and both week slots unchanged. -/
theorem claim7_thm (s : V1.S) (t : V3.S) (u : P0.S)
    (hnd : u.availableWeeks.Nodup) (hlen : 2 ≤ u.availableWeeks.length) :
    ((V1.clearOrder s).name = "" ∧ (V1.clearOrder s).notes = ""
      ∧ (V1.clearOrder s).weekA = 1 ∧ (V1.clearOrder s).useWeekB = false
      ∧ (V1.clearOrder s).weekB = 2
      ∧ (V1.clearOrder s).qtyA = emptyWeekQuantities
      ∧ (V1.clearOrder s).qtyB = emptyWeekQuantities)
  ∧ ((V3.clearOrder t).notes = "" ∧ (V3.clearOrder t).qtyA = emptyWeekQuantities
      ∧ (V3.clearOrder t).qtyB = emptyWeekQuantities
      ∧ (V3.clearOrder t).name = t.name ∧ (V3.clearOrder t).useWeekB = t.useWeekB
      ∧ (V3.clearOrder t).weekA = t.weekA ∧ (V3.clearOrder t).weekB = t.weekB)
  ∧ ((P0.clearOrder u).name = "" ∧ (P0.clearOrder u).notes = ""
      ∧ (P0.clearOrder u).useWeekB = false
      ∧ (P0.clearOrder u).qtyA = emptyWeekQuantities
      ∧ (P0.clearOrder u).qtyB = emptyWeekQuantities
      ∧ (P0.clearOrder u).weekA = u.availableWeeks.head?.getD 1
      ∧ (P0.clearOrder u).weekB ∈ u.availableWeeks
      ∧ (P0.clearOrder u).weekA ≠ (P0.clearOrder u).weekB
      ∧ P0.availableWeeksOf [] = P0.fallbackWeeks
      ∧ (P0.clearOrder { u with availableWeeks := P0.fallbackWeeks }).weekA = 1
      ∧ (P0.clearOrder { u with availableWeeks := P0.fallbackWeeks }).weekB = 2) := by
  refine ⟨⟨rfl, rfl, rfl, rfl, rfl, rfl, rfl⟩, ⟨rfl, rfl, rfl, rfl, rfl, rfl, rfl⟩,
    rfl, rfl, rfl, rfl, rfl, rfl, ?_, ?_, rfl, rfl, rfl⟩
  · -- the stored weekB is an available week
    obtain ⟨a, rest, hcons⟩ : ∃ a rest, u.availableWeeks = a :: rest := by
      cases h : u.availableWeeks with
      | nil => rw [h] at hlen; simp at hlen
      | cons a r => exact ⟨a, r, rfl⟩
    have hfirst : u.availableWeeks.head?.getD 1 = a := by rw [hcons]; rfl
    obtain ⟨y, hy, hyne⟩ := exists_ne_of_nodup hnd hlen a
    have hfind : ∃ alt, u.availableWeeks.find? (fun x => x != a) = some alt := by
      cases hf : u.availableWeeks.find? (fun x => x != a) with
      | some alt => exact ⟨alt, rfl⟩
      | none =>
          exfalso
          have hall := List.find?_eq_none.mp hf y hy
          simp only [bne_iff_ne, ne_eq, Decidable.not_not] at hall
          exact hyne hall
    obtain ⟨alt, halt⟩ := hfind
    have hmem : alt ∈ u.availableWeeks := List.mem_of_find?_eq_some halt
    show (u.availableWeeks.find? (fun x => x != u.availableWeeks.head?.getD 1)).getD
        (if u.availableWeeks.head?.getD 1 = 48 then 47 else u.availableWeeks.head?.getD 1 + 1)
      ∈ u.availableWeeks
    rw [hfirst, halt]
    exact hmem
  · -- the stored weekA differs from the stored weekB
    obtain ⟨a, rest, hcons⟩ : ∃ a rest, u.availableWeeks = a :: rest := by
      cases h : u.availableWeeks with
      | nil => rw [h] at hlen; simp at hlen
      | cons a r => exact ⟨a, r, rfl⟩
    have hfirst : u.availableWeeks.head?.getD 1 = a := by rw [hcons]; rfl
    obtain ⟨y, hy, hyne⟩ := exists_ne_of_nodup hnd hlen a
    have hfind : ∃ alt, u.availableWeeks.find? (fun x => x != a) = some alt := by
      cases hf : u.availableWeeks.find? (fun x => x != a) with
      | some alt => exact ⟨alt, rfl⟩
      | none =>
          exfalso
          have hall := List.find?_eq_none.mp hf y hy
          simp only [bne_iff_ne, ne_eq, Decidable.not_not] at hall
          exact hyne hall
    obtain ⟨alt, halt⟩ := hfind
    have haltne : alt ≠ a := by
      have := List.find?_some halt
      simpa [bne_iff_ne] using this
    show u.availableWeeks.head?.getD 1
      ≠ (u.availableWeeks.find? (fun x => x != u.availableWeeks.head?.getD 1)).getD
        (if u.availableWeeks.head?.getD 1 = 48 then 47 else u.availableWeeks.head?.getD 1 + 1)
    rw [hfirst, halt]
    exact fun he => haltne he.symm

/-- C7 witness: on a concrete part_000 state with catalog weeks 3 and 4
the cleared state holds two distinct available weeks. -/
theorem claim7_wit :
    (P0.clearOrder u7).weekB ∈ u7.availableWeeks
  ∧ (P0.clearOrder u7).weekA ≠ (P0.clearOrder u7).weekB := by
  refine ⟨(claim7_thm emptyV1 emptySession u7 (by decide) (by decide)).2.2.2.2.2.2.2.2.1,
    (claim7_thm emptyV1 emptySession u7 (by decide) (by decide)).2.2.2.2.2.2.2.2.2.1⟩

/-- C8: in both the detailed summary and the outbound message the notes
line shows the trimmed notes value and is omitted entirely when the notes
trim to the empty string; a whitespace-only notes field therefore produces
output identical to an empty notes field.  Stated for the variant V3
summary and message and for the variant V1 order text. -/
theorem claim8_thm (s : V3.S) (t : V1.S) :
    (jsTrim s.notes = "" →
        V3.whatsappText s = V3.whatsappText { s with notes := "" }
      ∧ V3.onScreenSummaryText s = V3.onScreenSummaryText { s with notes := "" })
  ∧ (jsTrim s.notes ≠ "" →
        (popTrailingEmpty (V3.whatsappLines s)).getLast? = some ("Notes: " ++ jsTrim s.notes)
      ∧ (popTrailingEmpty (V3.summaryLines s)).getLast? = some ("Notes: " ++ jsTrim s.notes))
  ∧ (jsTrim t.notes = "" → V1.buildOrderText t = V1.buildOrderText { t with notes := "" })
  ∧ (jsTrim t.notes ≠ "" →
        (V1.orderLines t).getLast? = some ("Notes: " ++ jsTrim t.notes)) := by
  refine ⟨?_, ?_, ?_, ?_⟩
  · intro h
    obtain ⟨nm, nt, ub, wa, wb, qa, qb, av, mn⟩ := s
    dsimp only at h
    constructor
    · simp [V3.whatsappText, V3.whatsappLines, V3.buildWhatsAppWeekLines, V3.getMenuForWeek,
        V3.totalMeals, V3.totalCost, h, trim_empty]
    · simp [V3.onScreenSummaryText, V3.summaryLines, V3.buildDetailedLinesForWeek,
        V3.getMenuForWeek, V3.totalMeals, V3.totalCost, h, trim_empty]
  · intro h
    constructor
    · have hw : V3.whatsappLines s =
          (["Meal Order", "Name: " ++ (if jsTrim s.name = "" then "[name]" else jsTrim s.name),
            ""]
          ++ (V3.buildWhatsAppWeekLines s s.weekA s.qtyA
          ++ ((if s.useWeekB = true ∧ s.weekB ≠ s.weekA then
                [""] ++ V3.buildWhatsAppWeekLines s s.weekB s.qtyB
              else [])
          ++ ["", "TOTAL: " ++ jsString (V3.totalMeals s) ++ " meals · "
                ++ formatRand (V3.totalCost s)])))
          ++ ["", "Notes: " ++ jsTrim s.notes] := by
        unfold V3.whatsappLines
        rw [if_neg h]
        simp [List.append_assoc]
      rw [hw, (popTrailingEmpty_snoc2 _ _ (notes_line_ne_empty (jsTrim s.notes))).1]
      exact (popTrailingEmpty_snoc2 _ _ (notes_line_ne_empty (jsTrim s.notes))).2
    · have hw : V3.summaryLines s =
          (["Meal Order", "Name: " ++ (if jsTrim s.name = "" then "[name]" else jsTrim s.name),
            ""]
          ++ (V3.buildDetailedLinesForWeek s s.weekA s.qtyA
          ++ ((if s.useWeekB = true ∧ s.weekB ≠ s.weekA then
                V3.buildDetailedLinesForWeek s s.weekB s.qtyB
              else [])
          ++ ["TOTAL: " ++ jsString (V3.totalMeals s) ++ " meals · "
                ++ formatRand (V3.totalCost s)])))
          ++ ["", "Notes: " ++ jsTrim s.notes] := by
        unfold V3.summaryLines
        rw [if_neg h]
        simp [List.append_assoc]
      rw [hw, (popTrailingEmpty_snoc2 _ _ (notes_line_ne_empty (jsTrim s.notes))).1]
      exact (popTrailingEmpty_snoc2 _ _ (notes_line_ne_empty (jsTrim s.notes))).2
  · intro h
    obtain ⟨nm, nt, wa, ub, wb, qa, qb⟩ := t
    dsimp only at h
    simp [V1.buildOrderText, V1.orderLines, V1.totalMeals, V1.totalCost, h, trim_empty]
  · intro h
    have hw : V1.orderLines t =
        (["Meal Order", "Name: " ++ (if jsTrim t.name = "" then "[name]" else jsTrim t.name),
          ""]
        ++ (V1.weekBlockLines t.weekA t.qtyA
        ++ ((if t.useWeekB then V1.weekBlockLines t.weekB t.qtyB else [])
        ++ (["Total meals: " ++ jsString (V1.totalMeals t)]
        ++ ["Total cost: " ++ formatRand (V1.totalCost t)]))))
        ++ ["", "Notes: " ++ jsTrim t.notes] := by
      unfold V1.orderLines
      rw [if_neg h]
      simp [List.append_assoc]
    rw [hw]
    exact (popTrailingEmpty_snoc2 _ _ (notes_line_ne_empty (jsTrim t.notes))).2

/-- C8 witness: whitespace-only notes give the same outputs as empty
notes, and notes that trim to a word end the line lists with the trimmed
notes line. -/
theorem claim8_wit :
    V3.whatsappText ws3 = V3.whatsappText { ws3 with notes := "" }
  ∧ (popTrailingEmpty (V3.whatsappLines ns3)).getLast? = some ("Notes: " ++ jsTrim ns3.notes)
  ∧ V1.buildOrderText ws1 = V1.buildOrderText { ws1 with notes := "" }
  ∧ (V1.orderLines ns1).getLast? = some ("Notes: " ++ jsTrim ns1.notes) := by
  refine ⟨((claim8_thm ws3 ws1).1 (by decide)).1,
    ((claim8_thm ns3 ns1).2.1 (by decide)).1,
    (claim8_thm ws3 ws1).2.2.1 (by decide),
    (claim8_thm ns3 ns1).2.2.2 (by decide)⟩
